import Mathlib

/-!
Verification of UltraStarAutoPitch (`main.py`) against its specification.

The Python source is shallowly embedded below:
* floats are modelled as exact rationals (`ℚ`) where the program does
  arithmetic on parsed chart numbers, and as reals (`ℝ`) for the
  transcendental pitch/frequency conversions;
* Python's `int(...)` conversion (truncation toward zero) is `pyInt`;
* Python/NumPy slicing `xs[s:e]` (negative indices counted from the end,
  bounds clamped) is `pySlice`;
* fallible code paths (`exit(...)`, uncaught `TypeError`/`IndexError`)
  are modelled with `Except PyErr`.
-/

namespace UltraStarAutoPitch

/-- Errors a run of the program can abort with. -/
inductive PyErr where
  /-- An uncaught `TypeError`, e.g. `int(None)`. -/
  | typeErr : PyErr
  /-- `exit("No #BPM-Tag in header found!")` (line 125). -/
  | noBPM : PyErr
  /-- `exit("No #GAP-Tag in header found!")` (line 127). -/
  | noGAP : PyErr
  /-- `exit("Invalid format. Failed on: " + line + ...)` (line 66). -/
  | fmtErr (line : String) : PyErr
  /-- `exit("Invalid line: " + str(line) + ".")` (lines 161, 213). -/
  | invalidLine (fields : List String) : PyErr
  /-- An uncaught `IndexError` from indexing a too-short list. -/
  | indexErr : PyErr
deriving DecidableEq

/-- Python's `int(q)`: truncation toward zero. -/
def pyInt (q : ℚ) : ℤ := if 0 ≤ q then ⌊q⌋ else ⌈q⌉

/-- Normalisation of one Python slice bound for a sequence of length `len`:
a negative index counts from the end (and is clamped below at 0), a
nonnegative index is clamped above at `len`. -/
def normIdx (len : ℕ) (i : ℤ) : ℕ :=
  if i < 0 then ((len : ℤ) + i).toNat else min i.toNat len

/-- Python/NumPy slicing `xs[s:e]` (step 1): the elements with positions in
`[normIdx len s, normIdx len e)`. -/
def pySlice {α : Type} (xs : List α) (s e : ℤ) : List α :=
  (xs.take (normIdx xs.length e)).drop (normIdx xs.length s)

/-- NumPy boolean-mask indexing `xs[mask]`. -/
def maskSelect {α : Type} (xs : List α) (mask : List Bool) : List α :=
  (xs.zip mask).filterMap (fun p => if p.2 then some p.1 else none)

/-- The model output (`modelOutput["pitch"]`, `modelOutput["uncertainty"]`),
two equal-length sequences of values in `[0,1]`. -/
structure FrameSeries where
  pitch : List ℚ
  uncertainty : List ℚ
deriving DecidableEq

/-- Python's `s.startswith(c)` for a one-character prefix `c` (the only
form the program uses): the string is nonempty and begins with `c`. -/
def pyStartsWith1 (s : String) (c : Char) : Bool :=
  match s.data with
  | [] => false
  | a :: _ => a = c

/-- Python's character slicing `s[:n]`. -/
def pyTake (s : String) (n : ℕ) : String := String.mk (s.data.take n)

/-- Python's character slicing `s[n:]`. -/
def pyDrop (s : String) (n : ℕ) : String := String.mk (s.data.drop n)

/-- Python's `s.split(" ")` on the character list: split at every single
space, keeping empty parts. -/
def splitSpaces : List Char → List (List Char)
  | [] => [[]]
  | c :: cs =>
    if c = ' ' then [] :: splitSpaces cs
    else
      match splitSpaces cs with
      | [] => [[c]]
      | t :: ts => (c :: t) :: ts

/-- Python's `s.split(" ")`: split on every single space, keeping empty
tokens (so a text field starting with a space yields an empty 5th token). -/
def pySplit (s : String) : List String :=
  (splitSpaces s.data).map String.mk

/-! ## Chart parser (`loadFile`, lines 42-70) -/

/-- Lines 53-56: collect the lines whose first character is `#`, in order. -/
def loadMeta (lines : List String) : List String :=
  lines.foldl (fun acc line => if pyStartsWith1 line '#' then acc ++ [line] else acc) []

/-- Lines 63-68: given the raw split of a non-metadata line, rejoin a
6-token split (`split[4] = " " + split.pop()`), reject a longer split, and
keep anything else as is.  `line` is only used in the error message. -/
def parseTokens (line : String) (split : List String) : Except PyErr (List String) :=
  if split.length = 6 then .ok (split.take 4 ++ [" " ++ split.getLastD ""])
  else if split.length > 6 then .error (.fmtErr line)
  else .ok split

/-- Lines 59-68 for one non-metadata line: `split = line.split(" ")` then
the 6-token fixup. -/
def parseLyricLine (line : String) : Except PyErr (List String) :=
  parseTokens line (pySplit line)

/-- Lines 58-68: the lyric lists produced for all non-metadata lines, in
order; fails on the first over-long split. -/
def loadLyrics : List String → Except PyErr (List (List String))
  | [] => .ok []
  | line :: rest =>
    if pyStartsWith1 line '#' then loadLyrics rest
    else do
      let fields ← parseLyricLine line
      let tail ← loadLyrics rest
      .ok (fields :: tail)

/-! ## Pitching stage (`pitch`, lines 112-177) -/

/-- Lines 116-120: scan the metadata lines for the `#BPM`/`#GAP` tags,
remembering the value of the last matching line of each kind.  `pf` models
Python's `float(...)` string parsing, which is outside the core. -/
def scanTags (pf : String → ℚ) (meta : List String) : Option ℚ × Option ℚ :=
  meta.foldl
    (fun acc line =>
      let b := if pyTake line 4 = "#BPM" then some (pf (pyDrop line 5)) else acc.1
      let g := if pyTake line 4 = "#GAP" then some (pf (pyDrop line 5)) else acc.2
      (b, g))
    (none, none)

/-- Line 122: `tps = int(bpm)*4/60`. -/
def tpsOf (b : ℚ) : ℚ := (pyInt b : ℚ) * 4 / 60

/-- Lines 112-127: the tag scan, the ticks-per-second computation and the
missing-tag checks, in source order.  Computing `int(bpm)*4/60` on line 122
raises a `TypeError` when `bpm` is still `None`, before the check on
line 124 is reached; that check is kept here as the (dead) inner `if`.
Returns `(tps, gap)` on success. -/
def pitchSetup (pf : String → ℚ) (meta : List String) : Except PyErr (ℚ × ℚ) :=
  let s := scanTags pf meta
  match s.1 with
  | none => .error .typeErr
  | some b =>
    let tps := tpsOf b
    if s.1 = none then .error .noBPM
    else
      match s.2 with
      | none => .error .noGAP
      | some g => .ok (tps, g)

/-- Line 163: `start = int(((gap/1000) + int(line[1])/tps - 0.5/tps) * 1000/32)`. -/
def startFrame (gap tps : ℚ) (s : ℤ) : ℤ :=
  pyInt ((gap / 1000 + (s : ℚ) / tps - 0.5 / tps) * 1000 / 32)

/-- Line 164: `end = int(((gap/1000) + (int(line[1]) + int(line[2]))/tps + 0.5/tps) * 1000/32)`. -/
def endFrame (gap tps : ℚ) (s d : ℤ) : ℤ :=
  pyInt ((gap / 1000 + ((s : ℚ) + (d : ℚ)) / tps + 0.5 / tps) * 1000 / 32)

/-- Line 166: `pitches = pitch[start:end]`. -/
def framesInRange (fs : FrameSeries) (a b : ℤ) : List ℚ :=
  pySlice fs.pitch a b

/-- Lines 131 and 167: the slice `confidence[start:end]` of the array
`confidence = 1.0 - uncertainty`. -/
def confInRange (fs : FrameSeries) (a b : ℤ) : List ℚ :=
  pySlice (fs.uncertainty.map (fun u => 1 - u)) a b

/-- Lines 166-167: the pitch values of the sliced range that pass the
confidence mask `confidence[start:end] >= args.confidence`. -/
def selectPitches (fs : FrameSeries) (τ : ℚ) (a b : ℤ) : List ℚ :=
  maskSelect (framesInRange fs a b) ((confInRange fs a b).map (fun c => decide (τ ≤ c)))

/-- `np.median`: sort, take the middle element (odd length) or the mean of
the two middle elements (even length). -/
def npMedian (xs : List ℚ) : ℚ :=
  let sorted := List.insertionSort (· ≤ ·) xs
  let n := xs.length
  if n % 2 = 1 then sorted.getD (n / 2) 0
  else (sorted.getD (n / 2 - 1) 0 + sorted.getD (n / 2) 0) / 2

/-- Constants from lines 182-185 and the conversion of lines 186-188:
`pitch2hz(p) = FMIN * 2.0 ** ((p * PT_SLOPE + PT_OFFSET) / BINS_PER_OCTAVE)`. -/
noncomputable def pitch2hz (p : ℝ) : ℝ :=
  10.0 * (2.0 : ℝ) ^ ((p * 63.07 + 25.58) / 12.0)

/-- `np.round`: round half to even. -/
noncomputable def npRound (x : ℝ) : ℤ :=
  if Int.fract x = 1 / 2 then (if Even ⌊x⌋ then ⌊x⌋ else ⌊x⌋ + 1) else round x

/-- Line 196: `hz2note(hz) = int(np.round(12 * np.log(4*hz/55 * 2**(3/4))/np.log(2))) - 60`
(the outer `int(...)` is the identity on the already-integral rounded value). -/
noncomputable def hz2note (hz : ℝ) : ℤ :=
  npRound (12 * Real.log (4 * hz / 55 * (2 : ℝ) ^ ((3 : ℝ) / 4)) / Real.log 2) - 60

/-- Lines 169-173: the note number produced for a frame range — the
sentinel 0 when no frame passes the confidence mask, otherwise the
converted median of the selected pitches. -/
noncomputable def noteForRange (fs : FrameSeries) (τ : ℚ) (a b : ℤ) : ℤ :=
  let sel := selectPitches fs τ a b
  if sel = [] then 0 else hz2note (pitch2hz (npMedian sel))

/-- Lines 152-175: process one parsed lyric line.  `pf` models Python's
`int(...)` string parsing for the tick fields. -/
noncomputable def pitchLine (pf : String → ℤ) (fs : FrameSeries) (τ tps gap : ℚ) :
    List String → Except PyErr (List String)
  | [] => .error .indexErr
  | t0 :: rest =>
    if pyStartsWith1 t0 '-' then
      match rest with
      | [] => .error .indexErr
      | t1 :: _ => .ok [t0, t1]
    else if pyStartsWith1 t0 'E' then .ok [t0]
    else if (t0 :: rest).length < 5 then .error (.invalidLine (t0 :: rest))
    else
      let s := pf ((t0 :: rest).getD 1 "")
      let d := pf ((t0 :: rest).getD 2 "")
      let a := startFrame gap tps s
      let b := endFrame gap tps s d
      let note := noteForRange fs τ a b
      .ok [(t0 :: rest).getD 0 "", (t0 :: rest).getD 1 "", (t0 :: rest).getD 2 "",
        toString note, (t0 :: rest).getD 4 ""]

/-! ## Serializer (`writeFile`, lines 199-220) -/

/-- Lines 206-215: the output text of one pitched line. -/
def serializeLine : List String → Except PyErr String
  | [] => .error .indexErr
  | t0 :: rest =>
    if pyStartsWith1 t0 '-' then
      match rest with
      | [] => .error .indexErr
      | t1 :: _ => .ok (t0 ++ " " ++ t1)
    else if pyStartsWith1 t0 'E' then .ok t0
    else if (t0 :: rest).length < 5 then .error (.invalidLine (t0 :: rest))
    else
      .ok ((t0 :: rest).getD 0 "" ++ " " ++ (t0 :: rest).getD 1 "" ++ " " ++
        (t0 :: rest).getD 2 "" ++ " " ++ (t0 :: rest).getD 3 "" ++ " " ++
        (t0 :: rest).getD 4 "")

/-- Lines 205-215: serialize every pitched line, in order. -/
def serializeAll : List (List String) → Except PyErr (List String)
  | [] => .ok []
  | l :: ls => do
    let s ← serializeLine l
    let rest ← serializeAll ls
    .ok (s :: rest)

/-- Lines 217-220: the full text written to the destination file —
`writelines(metaData)` followed by `writelines(lyricsString)`. -/
def writeOutput (metaData : List String) (lyricsPitched : List (List String)) :
    Except PyErr String :=
  (serializeAll lyricsPitched).map
    (fun strs => String.join metaData ++ String.join strs)

/-! ## Helper lemmas -/

/-- `pitchSetup` in case-analysed form. -/
lemma pitchSetup_eq_match (pf : String → ℚ) (meta : List String) :
    pitchSetup pf meta =
      match scanTags pf meta with
      | (none, _) => .error .typeErr
      | (some _, none) => .error .noGAP
      | (some b, some g) => .ok (tpsOf b, g) := by
  unfold pitchSetup
  rcases h : scanTags pf meta with ⟨_ | b, _ | g⟩ <;> simp [h]

/-- The positions of a sequence of length `len` that the Python slice
`[s:e]` selects, in order. -/
def sliceIdx (len : ℕ) (s e : ℤ) : List ℕ :=
  List.range' (normIdx len s) (normIdx len e - normIdx len s)

lemma normIdx_le (len : ℕ) (i : ℤ) : normIdx len i ≤ len := by
  unfold normIdx; split_ifs <;> omega

/-! ## C1: slice clamping -/

/-- C1 counterexample: on a 4-frame series, the mapped range with
startFrame = −1 (which the worked fixture produces) selects no frames at
all, while startFrame = 0 selects the first three — a negative startFrame
is not clamped to 0. -/
theorem sliceClamp_counterexample :
    framesInRange ⟨[1, 2, 3, 4], [0, 0, 0, 0]⟩ (-1) 3 = [] ∧
    framesInRange ⟨[1, 2, 3, 4], [0, 0, 0, 0]⟩ 0 3 = [1, 2, 3] ∧
    ([] : List ℚ) ≠ [1, 2, 3] := ⟨rfl, rfl, by simp⟩

/-- C1 (amended): the mapped range is applied as a half-open Python slice
into the series and never errors; an endFrame past the end selects the
same frames as the series length, but a negative startFrame is interpreted
relative to the end of the series (`len + startFrame`, clamped below at 0)
— only a startFrame ≤ −len selects the same frames as startFrame = 0. -/
theorem sliceClamp (fs : FrameSeries) (a b : ℤ) :
    ((fs.pitch.length : ℤ) ≤ b →
      framesInRange fs a b = framesInRange fs a (fs.pitch.length : ℤ)) ∧
    (a < 0 →
      framesInRange fs a b = framesInRange fs (max 0 ((fs.pitch.length : ℤ) + a)) b) ∧
    (a ≤ -(fs.pitch.length : ℤ) →
      framesInRange fs a b = framesInRange fs 0 b) := by
  refine ⟨fun h => ?_, fun h => ?_, fun h => ?_⟩ <;>
    unfold framesInRange pySlice
  · have he : normIdx fs.pitch.length b = normIdx fs.pitch.length (fs.pitch.length : ℤ) := by
      unfold normIdx; split_ifs <;> omega
    rw [he]
  · have hs : normIdx fs.pitch.length a
        = normIdx fs.pitch.length (max 0 ((fs.pitch.length : ℤ) + a)) := by
      unfold normIdx; split_ifs <;> omega
    rw [hs]
  · have hs : normIdx fs.pitch.length a = normIdx fs.pitch.length 0 := by
      unfold normIdx; split_ifs <;> omega
    rw [hs]

/-- Witness for C1 (amended) on a concrete 3-frame series. -/
theorem sliceClamp_witness :
    (framesInRange ⟨[1, 2, 3], [0, 0, 0]⟩ (-1) 5
        = framesInRange ⟨[1, 2, 3], [0, 0, 0]⟩ (-1) 3) ∧
    (framesInRange ⟨[1, 2, 3], [0, 0, 0]⟩ (-1) 5
        = framesInRange ⟨[1, 2, 3], [0, 0, 0]⟩ (max 0 (3 + -1)) 5) ∧
    (framesInRange ⟨[1, 2, 3], [0, 0, 0]⟩ (-4) 5
        = framesInRange ⟨[1, 2, 3], [0, 0, 0]⟩ 0 5) :=
  ⟨(sliceClamp ⟨[1, 2, 3], [0, 0, 0]⟩ (-1) 5).1 (by decide),
    (sliceClamp ⟨[1, 2, 3], [0, 0, 0]⟩ (-1) 5).2.1 (by decide),
    (sliceClamp ⟨[1, 2, 3], [0, 0, 0]⟩ (-4) 5).2.2 (by decide)⟩

/-! ## C2: the time-to-frame mapper -/

/-- C2 counterexample: at BPM=120, GAP=0, startTick=0 the code computes
startFrame = −1 (Python `int(...)` truncates toward zero), while the
claimed `floor` of the same quantity is −2. -/
theorem frameMapper_floor_counterexample :
    startFrame 0 (tpsOf 120) 0 = -1 ∧
    ⌊((0 : ℚ) / 1000 + (0 : ℚ) / tpsOf 120 - 0.5 / tpsOf 120) * 1000 / 32⌋ = -2 ∧
    (-1 : ℤ) ≠ -2 := by
  refine ⟨?_, ?_, by decide⟩
  · norm_num [startFrame, tpsOf, pyInt, Int.ceil_eq_iff]
  · norm_num [tpsOf, pyInt, Int.floor_eq_iff]

/-- C2 (amended): the mapper converts the half-tick-padded start/end times
with a truncating (toward zero) integer conversion, not `floor`; on the
worked fixture (BPM=120, GAP=0, startTick=0, durationTick=4) it yields
startFrame = −1 and endFrame = 17. -/
theorem frameMapper_trunc :
    (∀ (gap tps : ℚ) (s d : ℤ),
        (startFrame gap tps s =
          if 0 ≤ (gap / 1000 + (s : ℚ) / tps - 0.5 / tps) * 1000 / 32
          then ⌊(gap / 1000 + (s : ℚ) / tps - 0.5 / tps) * 1000 / 32⌋
          else ⌈(gap / 1000 + (s : ℚ) / tps - 0.5 / tps) * 1000 / 32⌉) ∧
        (endFrame gap tps s d =
          if 0 ≤ (gap / 1000 + ((s : ℚ) + d) / tps + 0.5 / tps) * 1000 / 32
          then ⌊(gap / 1000 + ((s : ℚ) + d) / tps + 0.5 / tps) * 1000 / 32⌋
          else ⌈(gap / 1000 + ((s : ℚ) + d) / tps + 0.5 / tps) * 1000 / 32⌉)) ∧
    startFrame 0 (tpsOf 120) 0 = -1 ∧ endFrame 0 (tpsOf 120) 0 4 = 17 := by
  refine ⟨fun gap tps s d => ⟨rfl, rfl⟩, ?_, ?_⟩
  · norm_num [startFrame, tpsOf, pyInt, Int.ceil_eq_iff]
  · norm_num [endFrame, tpsOf, pyInt, Int.floor_eq_iff]

/-! ## C3: ticks per second -/

/-- C3 counterexample: for the non-integral BPM value 120.5 the code uses
ticks-per-second 8 (it truncates the BPM first), not 120.5 × 4 / 60. -/
theorem tps_counterexample :
    tpsOf (241 / 2) = 8 ∧ (241 / 2 : ℚ) * 4 / 60 = 241 / 30 ∧ (8 : ℚ) ≠ 241 / 30 := by
  refine ⟨?_, by norm_num, by norm_num⟩
  norm_num [tpsOf, pyInt, Int.floor_eq_iff]

/-- C3 (amended): ticks-per-second is `int(b) × 4 / 60` — the BPM is
truncated to an integer first — which agrees with b × 4 / 60 exactly when
b is integral. -/
theorem tps_truncates_bpm (b : ℚ) :
    tpsOf b = (pyInt b : ℚ) * 4 / 60 ∧ (b.den = 1 → tpsOf b = b * 4 / 60) := by
  refine ⟨rfl, fun h => ?_⟩
  have hb : ((b.num : ℚ)) = b := by
    conv_rhs => rw [← Rat.num_div_den b]
    rw [h]
    norm_num
  unfold tpsOf pyInt
  rw [← hb, Int.floor_intCast, Int.ceil_intCast]
  simp

/-- Witness for C3 (amended) at b = 120. -/
theorem tps_truncates_bpm_witness :
    tpsOf 120 = (pyInt 120 : ℚ) * 4 / 60 ∧ tpsOf 120 = 120 * 4 / 60 :=
  ⟨(tps_truncates_bpm 120).1, (tps_truncates_bpm 120).2 rfl⟩

/-! ## C4: the 6-token rejoin -/

/-- C4 counterexample: on the 6-token line `"a b c d e f"` the parser
stores `" f"` as the 5th field — the 5th raw token `"e"` is discarded, so
the stored text is not `"e" ++ " " ++ "f"`. -/
theorem sixTokenRejoin_counterexample :
    parseLyricLine "a b c d e f" = .ok ["a", "b", "c", "d", " f"] ∧
    (" f" : String) ≠ "e" ++ " " ++ "f" := ⟨rfl, by decide⟩

/-- C4 (amended): on a 6-token split the parser sets the 5th field to a
single space followed by the 6th raw token, overwriting the 5th raw token;
when the original text began with a space the 5th raw token is empty, so
this equals token5 ++ " " ++ token6 and the leading space is preserved. -/
theorem sixTokenRejoin (line t0 t1 t2 t3 t4 t5 : String) :
    parseTokens line [t0, t1, t2, t3, t4, t5] = .ok [t0, t1, t2, t3, " " ++ t5] ∧
    (t4 = "" → " " ++ t5 = t4 ++ " " ++ t5) :=
  ⟨rfl, fun h => by subst h; rfl⟩

/-- Witness for C4 (amended) on a concrete 6-token split with an empty 5th
token. -/
theorem sixTokenRejoin_witness :
    parseTokens "T 1 2 3  go" ["T", "1", "2", "3", "", "go"] =
      .ok ["T", "1", "2", "3", " " ++ "go"] ∧
    (" " ++ "go" : String) = "" ++ " " ++ "go" :=
  ⟨(sixTokenRejoin "T 1 2 3  go" "T" "1" "2" "3" "" "go").1,
    (sixTokenRejoin "T 1 2 3  go" "T" "1" "2" "3" "" "go").2 rfl⟩

/-! ## C5: missing BPM/GAP tags -/

/-- C5 counterexample: on metadata with a `#GAP` line but no `#BPM` line
the pitching stage aborts with a `TypeError` (from `int(None)` on
line 122), not with either missing-tag message. -/
theorem missingTag_counterexample :
    pitchSetup (fun _ => 0) ["#GAP:0\n"] = .error .typeErr ∧
    (Except.error PyErr.typeErr : Except PyErr (ℚ × ℚ)) ≠ .error .noBPM ∧
    (Except.error PyErr.typeErr : Except PyErr (ℚ × ℚ)) ≠ .error .noGAP :=
  ⟨rfl, by simp, by simp⟩

/-- C5 (amended): after the metadata scan, a missing BPM tag aborts with a
`TypeError` at the ticks-per-second computation (the dedicated missing-BPM
check on line 124 is unreachable), while a missing GAP tag (with BPM
present) aborts with the missing-GAP message; the abort happens in the
pitching stage, which the driver runs only after audio loading and
inference, and before any output is written. -/
theorem missingTag_behaviour (pf : String → ℚ) (meta : List String) :
    ((scanTags pf meta).1 = none → pitchSetup pf meta = .error .typeErr) ∧
    ((scanTags pf meta).1 ≠ none → (scanTags pf meta).2 = none →
      pitchSetup pf meta = .error .noGAP) ∧
    pitchSetup pf meta ≠ .error .noBPM := by
  have h := pitchSetup_eq_match pf meta
  rcases hs : scanTags pf meta with ⟨o1, o2⟩
  rw [hs] at h
  rcases o1 with _ | b <;> rcases o2 with _ | g <;> simp_all

/-- Witness for C5 (amended): both abort paths on concrete metadata. -/
theorem missingTag_behaviour_witness :
    pitchSetup (fun _ => 0) ["#GAP:0\n"] = .error .typeErr ∧
    pitchSetup (fun _ => 120) ["#BPM:120\n"] = .error .noGAP :=
  ⟨(missingTag_behaviour (fun _ => 0) ["#GAP:0\n"]).1 rfl,
    (missingTag_behaviour (fun _ => 120) ["#BPM:120\n"]).2.1 (by decide) rfl⟩

/-! ## C7: malformed-line rejection -/

/-- C7 counterexample: the 3-token line `"X 1 2\n"` is accepted by the
chart parser (no `FormatError`); it is only the pitching stage — which
runs after the audio work — that rejects it. -/
theorem shortLine_counterexample :
    parseLyricLine "X 1 2\n" = .ok ["X", "1", "2\n"] ∧
    pitchLine (fun _ => 0) ⟨[], []⟩ 0 0 0 ["X", "1", "2\n"] =
      .error (.invalidLine ["X", "1", "2\n"]) := ⟨rfl, rfl⟩

/-- C7 (amended): a raw split of more than 6 tokens is rejected by the
parser itself with a `FormatError` naming the line; a non-break, non-end
line with fewer than 5 fields passes the parser and is instead rejected
with an invalid-line error by the pitching stage (after the audio work). -/
theorem malformedLine_rejection :
    (∀ line : String, 6 < (pySplit line).length →
      parseLyricLine line = .error (.fmtErr line)) ∧
    (∀ (pf : String → ℤ) (fs : FrameSeries) (τ tps gap : ℚ) (t0 : String)
        (rest : List String),
      pyStartsWith1 t0 '-' = false → pyStartsWith1 t0 'E' = false →
      (t0 :: rest).length < 5 →
      pitchLine pf fs τ tps gap (t0 :: rest) = .error (.invalidLine (t0 :: rest))) := by
  constructor
  · intro line h
    have h6 : ¬ (pySplit line).length = 6 := by omega
    simp [parseLyricLine, parseTokens, h6, h]
  · intro pf fs τ tps gap t0 rest h1 h2 h3
    have h4 : rest.length < 4 := by simp at h3; omega
    simp [pitchLine, h1, h2, h4]

/-- Witness for C7 (amended): a 7-token line and a 3-token line. -/
theorem malformedLine_rejection_witness :
    parseLyricLine "a b c d e f g" = .error (.fmtErr "a b c d e f g") ∧
    pitchLine (fun _ => 0) ⟨[], []⟩ 0 0 0 ["Y", "1", "2\n"] =
      .error (.invalidLine ["Y", "1", "2\n"]) :=
  ⟨malformedLine_rejection.1 "a b c d e f g" (by decide),
    malformedLine_rejection.2 (fun _ => 0) ⟨[], []⟩ 0 0 0 "Y" ["1", "2\n"]
      rfl rfl (by decide)⟩

/-! ## C6: the confidence-filtered aggregator -/

lemma pySlice_map {α β : Type} (f : α → β) (xs : List α) (s e : ℤ) :
    pySlice (xs.map f) s e = (pySlice xs s e).map f := by
  unfold pySlice
  rw [List.length_map, ← List.map_take, ← List.map_drop]

lemma pySlice_eq_map (xs : List ℚ) (s e : ℤ) :
    pySlice xs s e = (sliceIdx xs.length s e).map (fun i => xs.getD i 0) := by
  unfold pySlice sliceIdx
  have hb := normIdx_le xs.length e
  apply List.ext_getElem
  · simp only [List.length_drop, List.length_take, List.length_map, List.length_range']
    omega
  · intro i h1 h2
    have hi : i < normIdx xs.length e - normIdx xs.length s := by
      simp only [List.length_drop, List.length_take] at h1
      omega
    rw [List.getElem_drop, List.getElem_take, List.getElem_map, List.getElem_range']
    simp only [one_mul]
    rw [List.getD_eq_getElem]

lemma maskSelect_map (l : List ℕ) (f : ℕ → ℚ) (g : ℕ → Bool) :
    maskSelect (l.map f) (l.map g) = (l.filter g).map f := by
  induction l with
  | nil => rfl
  | cons x xs ih =>
    simp only [List.map_cons, maskSelect, List.zip_cons_cons, List.filterMap_cons,
      List.filter_cons] at *
    cases hg : g x <;> simp [hg, ih]

lemma selectPitches_eq_filter (fs : FrameSeries) (τ : ℚ) (a b : ℤ)
    (h : fs.pitch.length = fs.uncertainty.length) :
    selectPitches fs τ a b =
      ((sliceIdx fs.pitch.length a b).filter
          (fun i => decide (τ ≤ 1 - fs.uncertainty.getD i 0))).map
        (fun i => fs.pitch.getD i 0) := by
  unfold selectPitches framesInRange confInRange
  rw [pySlice_map, pySlice_eq_map, pySlice_eq_map, ← h, List.map_map, List.map_map]
  have hmask :
      (((fun c => decide (τ ≤ c)) ∘ fun u => 1 - u) ∘ fun i => fs.uncertainty.getD i 0)
        = fun i => decide (τ ≤ 1 - fs.uncertainty.getD i 0) := rfl
  rw [hmask, maskSelect_map]

/-- C6: for every note range the aggregator selects exactly the in-range
frame positions whose confidence (1 − uncertainty) is ≥ τ; when that
subset is empty the note number is the sentinel 0, otherwise it is the
pitch-to-note conversion of the median of the selected pitch values. -/
theorem aggregator_spec (fs : FrameSeries) (τ : ℚ) (a b : ℤ)
    (h : fs.pitch.length = fs.uncertainty.length) :
    noteForRange fs τ a b =
      if ((sliceIdx fs.pitch.length a b).filter
            (fun i => decide (τ ≤ 1 - fs.uncertainty.getD i 0))) = [] then 0
      else
        hz2note (pitch2hz (npMedian
          (((sliceIdx fs.pitch.length a b).filter
              (fun i => decide (τ ≤ 1 - fs.uncertainty.getD i 0))).map
            (fun i => fs.pitch.getD i 0)))) := by
  unfold noteForRange
  rw [selectPitches_eq_filter fs τ a b h]
  by_cases hnil :
      ((sliceIdx fs.pitch.length a b).filter
        (fun i => decide (τ ≤ 1 - fs.uncertainty.getD i 0))) = []
  · simp [hnil]
  · simp [hnil]

/-- Witness for C6 on a concrete 2-frame series whose uncertainties are 1
(confidence 0 < τ = 1). -/
theorem aggregator_spec_witness :
    noteForRange ⟨[1, 2], [1, 1]⟩ 1 0 2 =
      if ((sliceIdx 2 0 2).filter
            (fun i => decide ((1 : ℚ) ≤ 1 - [(1 : ℚ), 1].getD i 0))) = [] then 0
      else
        hz2note (pitch2hz (npMedian
          (((sliceIdx 2 0 2).filter
              (fun i => decide ((1 : ℚ) ≤ 1 - [(1 : ℚ), 1].getD i 0))).map
            (fun i => [(1 : ℚ), 2].getD i 0)))) :=
  aggregator_spec ⟨[1, 2], [1, 1]⟩ 1 0 2 rfl

/-! ## C9: metadata round-trip -/

lemma loadMeta_eq_filter (lines : List String) :
    loadMeta lines = lines.filter (fun l => pyStartsWith1 l '#') := by
  have key : ∀ (ls acc : List String),
      ls.foldl (fun acc line => if pyStartsWith1 line '#' then acc ++ [line] else acc) acc
        = acc ++ ls.filter (fun l => pyStartsWith1 l '#') := by
    intro ls
    induction ls with
    | nil => simp
    | cons x xs ih =>
      intro acc
      cases hx : pyStartsWith1 x '#' <;>
        simp [List.filter_cons, hx, ih]
  simpa using key lines []

/-- C9: the serialized output is exactly the input's metadata lines —
byte-for-byte, in their original order — followed by the serialized note
lines. -/
theorem metadata_roundtrip (lines : List String) (lp : List (List String))
    (strs : List String) (h : serializeAll lp = .ok strs) :
    writeOutput (loadMeta lines) lp =
      .ok (String.join (lines.filter (fun l => pyStartsWith1 l '#'))
        ++ String.join strs) := by
  rw [writeOutput, h, loadMeta_eq_filter]
  rfl

/-- Witness for C9 on a concrete two-line chart. -/
theorem metadata_roundtrip_witness :
    writeOutput (loadMeta ["#BPM:120\n", "F 0 4 0 ah\n"]) [["-", "8\n"]] =
      .ok (String.join (["#BPM:120\n", "F 0 4 0 ah\n"].filter
          (fun l => pyStartsWith1 l '#'))
        ++ String.join ["- 8\n"]) :=
  metadata_roundtrip ["#BPM:120\n", "F 0 4 0 ah\n"] [["-", "8\n"]] ["- 8\n"] rfl

/-! ## C10: prefix dispatch on the first token -/

/-- C10: both the pitching stage and the serializer dispatch on the first
character of the first token: a 5-field line whose type token starts with
`-` is reduced to its first two fields, and one whose type token starts
with `E` to its first field alone — the other fields are dropped. -/
theorem prefixDispatch (pf : String → ℤ) (fs : FrameSeries) (τ tps gap : ℚ)
    (t0 t1 t2 t3 t4 : String) :
    (pyStartsWith1 t0 '-' = true →
      pitchLine pf fs τ tps gap [t0, t1, t2, t3, t4] = .ok [t0, t1] ∧
      serializeLine [t0, t1, t2, t3, t4] = .ok (t0 ++ " " ++ t1)) ∧
    (pyStartsWith1 t0 '-' = false → pyStartsWith1 t0 'E' = true →
      pitchLine pf fs τ tps gap [t0, t1, t2, t3, t4] = .ok [t0] ∧
      serializeLine [t0, t1, t2, t3, t4] = .ok t0) := by
  refine ⟨fun h => ⟨?_, ?_⟩, fun h h2 => ⟨?_, ?_⟩⟩ <;>
    simp [pitchLine, serializeLine, h, *]

/-- Witness for C10 on a `-`-prefixed and an `E`-prefixed 5-field line. -/
theorem prefixDispatch_witness :
    (pitchLine (fun _ => 0) ⟨[], []⟩ 0 0 0 ["-A", "8", "x", "y", "z"] = .ok ["-A", "8"] ∧
      serializeLine ["-A", "8", "x", "y", "z"] = .ok ("-A" ++ " " ++ "8")) ∧
    (pitchLine (fun _ => 0) ⟨[], []⟩ 0 0 0 ["Easy", "1", "2", "3", " t\n"] = .ok ["Easy"] ∧
      serializeLine ["Easy", "1", "2", "3", " t\n"] = .ok "Easy") :=
  ⟨(prefixDispatch (fun _ => 0) ⟨[], []⟩ 0 0 0 "-A" "8" "x" "y" "z").1 rfl,
    (prefixDispatch (fun _ => 0) ⟨[], []⟩ 0 0 0 "Easy" "1" "2" "3" " t\n").2 rfl rfl⟩

/-! ## C8: monotonicity of the pitch-to-note conversion -/

lemma roundMonoLe {x y : ℝ} (h : x ≤ y) : round x ≤ round y := by
  rw [round_eq, round_eq]
  exact Int.floor_mono (by linarith)

lemma npRound_le_round (x : ℝ) : npRound x ≤ round x := by
  unfold npRound
  split_ifs with h1 h2
  · rw [round_eq]
    exact Int.le_floor.mpr (by linarith [Int.floor_le x])
  · have hx : x = ⌊x⌋ + 1 / 2 := by
      conv_lhs => rw [← Int.floor_add_fract x, h1]
    rw [round_eq, hx]
    have h3 : (⌊x⌋ : ℝ) + 1 / 2 + 1 / 2 = ((⌊x⌋ + 1 : ℤ) : ℝ) := by push_cast; ring
    rw [h3, Int.floor_intCast]
    have h4 : ⌊(⌊x⌋ : ℝ) + 1 / 2⌋ = ⌊x⌋ := by
      rw [Int.floor_int_add]
      norm_num
    omega
  · exact le_refl _

lemma npRound_le_floor_add_one (x : ℝ) : npRound x ≤ ⌊x⌋ + 1 := by
  unfold npRound
  split_ifs with h1 h2
  · omega
  · exact le_refl _
  · rw [round_eq]
    have h3 : ⌊x + 1 / 2⌋ ≤ ⌊x + (1 : ℤ)⌋ := Int.floor_mono (by push_cast; linarith)
    rw [Int.floor_add_int] at h3
    exact h3

lemma npRound_mono {x y : ℝ} (h : x ≤ y) : npRound x ≤ npRound y := by
  by_cases hfy : Int.fract y = 1 / 2
  · have hyx : y = ⌊y⌋ + 1 / 2 := by
      conv_lhs => rw [← Int.floor_add_fract y, hfy]
    by_cases hey : Even ⌊y⌋
    · have hyval : npRound y = ⌊y⌋ := by unfold npRound; rw [if_pos hfy, if_pos hey]
      rw [hyval]
      by_cases hfx : Int.fract x = 1 / 2
      · have hxx : x = ⌊x⌋ + 1 / 2 := by
          conv_lhs => rw [← Int.floor_add_fract x, hfx]
        rcases eq_or_lt_of_le h with rfl | hlt
        · rw [show npRound x = ⌊x⌋ from by unfold npRound; rw [if_pos hfx, if_pos hey]]
        · have hfl : ⌊x⌋ < ⌊y⌋ := by
            have : (⌊x⌋ : ℝ) < ⌊y⌋ := by linarith [hxx, hyx]
            exact_mod_cast this
          have := npRound_le_floor_add_one x
          omega
      · have hxval : npRound x = round x := by unfold npRound; rw [if_neg hfx]
        rw [hxval, round_eq]
        have hxlt : x < y := lt_of_le_of_ne h (fun hxy => hfx (hxy ▸ hfy))
        have : ⌊x + 1 / 2⌋ < ⌊y⌋ + 1 := by
          apply Int.floor_lt.mpr
          push_cast
          linarith
        omega
    · have hyval : npRound y = round y := by
        unfold npRound
        rw [if_pos hfy, if_neg hey, round_eq]
        conv_rhs => rw [hyx]
        have : (⌊y⌋ : ℝ) + 1 / 2 + 1 / 2 = ((⌊y⌋ + 1 : ℤ) : ℝ) := by push_cast; ring
        rw [this, Int.floor_intCast]
      rw [hyval]
      exact le_trans (npRound_le_round x) (roundMonoLe h)
  · have hyval : npRound y = round y := by unfold npRound; rw [if_neg hfy]
    rw [hyval]
    exact le_trans (npRound_le_round x) (roundMonoLe h)

lemma pitch2hz_pos (p : ℝ) : 0 < pitch2hz p := by
  unfold pitch2hz
  have := Real.rpow_pos_of_pos (show (0 : ℝ) < 2.0 by norm_num)
    ((p * 63.07 + 25.58) / 12.0)
  linarith

lemma pitch2hz_mono {p1 p2 : ℝ} (h : p1 ≤ p2) : pitch2hz p1 ≤ pitch2hz p2 := by
  unfold pitch2hz
  have hexp : (p1 * 63.07 + 25.58) / 12.0 ≤ (p2 * 63.07 + 25.58) / 12.0 := by
    apply (div_le_div_right (by norm_num)).mpr
    nlinarith
  have := Real.rpow_le_rpow_of_exponent_le (show (1 : ℝ) ≤ 2.0 by norm_num) hexp
  linarith

lemma hz2note_mono {x y : ℝ} (hp : 0 < x) (hle : x ≤ y) : hz2note x ≤ hz2note y := by
  unfold hz2note
  have hc : (0 : ℝ) < (2 : ℝ) ^ ((3 : ℝ) / 4) :=
    Real.rpow_pos_of_pos (by norm_num) _
  have hx1 : (0 : ℝ) < 4 * x / 55 * (2 : ℝ) ^ ((3 : ℝ) / 4) := by positivity
  have hxle : 4 * x / 55 * (2 : ℝ) ^ ((3 : ℝ) / 4)
      ≤ 4 * y / 55 * (2 : ℝ) ^ ((3 : ℝ) / 4) := by
    apply mul_le_mul_of_nonneg_right _ hc.le
    linarith
  have hlog := Real.log_le_log hx1 hxle
  have hlog2 : (0 : ℝ) < Real.log 2 := Real.log_pos (by norm_num)
  have harg := (div_le_div_right hlog2).mpr
    (by linarith :
      12 * Real.log (4 * x / 55 * (2 : ℝ) ^ ((3 : ℝ) / 4))
        ≤ 12 * Real.log (4 * y / 55 * (2 : ℝ) ^ ((3 : ℝ) / 4)))
  have := npRound_mono harg
  omega

/-- C8: the composed pitch-to-note mapping is non-decreasing on `[0,1]`:
for p1 < p2 in `[0,1]`, `hz2note (pitch2hz p1) ≤ hz2note (pitch2hz p2)`. -/
theorem pitchToNote_monotone (p1 p2 : ℝ) (h0 : 0 ≤ p1) (h12 : p1 < p2)
    (h1 : p2 ≤ 1) : hz2note (pitch2hz p1) ≤ hz2note (pitch2hz p2) :=
  hz2note_mono (pitch2hz_pos p1) (pitch2hz_mono h12.le)

/-- Witness for C8 at the endpoints p1 = 0, p2 = 1. -/
theorem pitchToNote_monotone_witness :
    hz2note (pitch2hz 0) ≤ hz2note (pitch2hz 1) :=
  pitchToNote_monotone 0 1 (le_refl 0) zero_lt_one (le_refl 1)

end UltraStarAutoPitch
